import Mathlib

/-!
Shallow embedding of the warmup / plate-loading calculator in src/app.py.

All weights are modelled as rational numbers.  The Python built-in round,
which rounds to the nearest integer with ties going to the even integer,
is modelled by pyRound; round(x, 2) is modelled by pyRound2.  The
ValueError raised by plate_weight is modelled with Except String.
-/

namespace Lift

/-- Python built-in round to an integer: nearest integer, ties to even. -/
def pyRound (x : ℚ) : ℤ :=
  if x - ⌊x⌋ < 1/2 then ⌊x⌋
  else if 1/2 < x - ⌊x⌋ then ⌊x⌋ + 1
  else if ⌊x⌋ % 2 = 0 then ⌊x⌋ else ⌊x⌋ + 1

/-- Python round(x, 2): round to two decimal digits, ties to even. -/
def pyRound2 (x : ℚ) : ℚ := (pyRound (x * 100) : ℚ) / 100

/-- calculate_warmup_weights from src/app.py: the three warmup weights
at 45, 65 and 85 percent of the target, each rounded to a multiple of 5
with the Python round. -/
def calculate_warmup_weights (target_weight : ℚ) : ℚ × ℚ × ℚ :=
  ((pyRound (target_weight * 0.45 / 5) * 5 : ℤ),
   (pyRound (target_weight * 0.65 / 5) * 5 : ℤ),
   (pyRound (target_weight * 0.85 / 5) * 5 : ℤ))

/-- plate_weight from src/app.py: the weight to load on each side of the
barbell, raising ValueError when the total weight is below the bar
weight.  The Python default argument for bar_weight is 20; every call
site in the file passes that default, written explicitly here. -/
def plate_weight (total_weight : ℚ) (bar_weight : ℚ) : Except String ℚ :=
  if total_weight < bar_weight then
    Except.error ("Total weight must be greater than or equal to the bar weight.")
  else
    Except.ok ((total_weight - bar_weight) / 2)

/-- The inner while loop of plate_selection: append the plate and subtract
it from the remaining weight while the remaining weight is at least the
plate.  For a non-positive plate the Python loop would never exit once
entered, so the guard also requires the plate to be positive; with the
default denominations this extra guard never fires. -/
def plateLoop (plate : ℚ) (remaining : ℚ) : List ℚ × ℚ :=
  if h : 0 < plate ∧ plate ≤ remaining then
    let p := plateLoop plate (remaining - plate)
    (plate :: p.1, p.2)
  else ([], remaining)
termination_by (⌊remaining / plate⌋).toNat
decreasing_by
  obtain ⟨hp, hr⟩ := h
  have h1 : (1:ℚ) ≤ remaining / plate := (one_le_div hp).mpr hr
  have h3 : (1:ℤ) ≤ ⌊remaining / plate⌋ := by
    rw [Int.le_floor]
    exact_mod_cast h1
  have h2 : (remaining - plate) / plate = remaining / plate - 1 := by
    field_simp
  rw [h2, Int.floor_sub_one]
  omega

/-- The outer for loop of plate_selection: run the inner loop for each
plate denomination in order, threading the remaining weight through and
collecting the selected plates. -/
def selectGo : List ℚ → ℚ → List ℚ × ℚ
  | [], remaining => ([], remaining)
  | p :: ps, remaining =>
    let inner := plateLoop p remaining
    let rest := selectGo ps inner.2
    (inner.1 ++ rest.1, rest.2)

/-- The default plate denominations of plate_selection in src/app.py. -/
def defaultPlates : List ℚ := [20, 10, 5, 2.5]

/-- plate_selection from src/app.py: greedily select the plates needed to
load the given weight on each side of the barbell.  The Python default
argument for plate_weights is [20, 10, 5, 2.5]; every call site uses the
default, passed explicitly here as defaultPlates. -/
def plate_selection (weight_to_load : ℚ) (plate_weights : List ℚ) : List ℚ :=
  (selectGo plate_weights weight_to_load).1

/-- The plates field of a set in the dictionary built by get_workout_data:
the bar-only entry stores a display string, the other entries store the
list of selected denominations. -/
inductive PlatesField where
  | text (s : String)
  | list (l : List ℚ)

/-- The denominations carried by a plates field; the text entry of the
bar-only set carries none. -/
def PlatesField.denoms : PlatesField → List ℚ
  | PlatesField.text _ => []
  | PlatesField.list l => l

/-- One entry of the warmup_sets list built by get_workout_data. -/
structure WorkoutSet where
  set : String
  reps : ℕ
  weight : ℚ
  weight_per_side : ℚ
  plates : PlatesField

/-- The target entry built by get_workout_data. -/
structure TargetData where
  weight : ℚ
  weight_per_side : ℚ
  plates : List ℚ

/-- The dictionary returned by get_workout_data: four warmup sets plus
the target entry. -/
structure WorkoutData where
  warmup_sets : List WorkoutSet
  target : TargetData

/-- get_workout_data from src/app.py.  The four plate_weight calls are
sequenced in the evaluation order of the Python dict literal, so the
first failing one determines the error. -/
def get_workout_data (target_weight : ℚ) : Except String WorkoutData :=
  let w45 := (calculate_warmup_weights target_weight).1
  let w65 := (calculate_warmup_weights target_weight).2.1
  let w85 := (calculate_warmup_weights target_weight).2.2
  (plate_weight w45 20).bind fun p45 =>
    (plate_weight w65 20).bind fun p65 =>
      (plate_weight w85 20).bind fun p85 =>
        (plate_weight target_weight 20).bind fun pt =>
          Except.ok
            { warmup_sets := [
                { set := ("2 sets"), reps := 5, weight := 20, weight_per_side := 0,
                  plates := PlatesField.text ("None (just the bar)") },
                { set := ("1 set"), reps := 5, weight := w45,
                  weight_per_side := pyRound2 p45,
                  plates := PlatesField.list (plate_selection p45 defaultPlates) },
                { set := ("1 set"), reps := 3, weight := w65,
                  weight_per_side := pyRound2 p65,
                  plates := PlatesField.list (plate_selection p65 defaultPlates) },
                { set := ("1 set"), reps := 2, weight := w85,
                  weight_per_side := pyRound2 p85,
                  plates := PlatesField.list (plate_selection p85 defaultPlates) } ],
              target :=
                { weight := target_weight,
                  weight_per_side := pyRound2 pt,
                  plates := plate_selection pt defaultPlates } }

/-- One pass of the greedy decomposition described by the spec for a
single denomination: append the denomination as many times as it still
fits and subtract it from the remaining weight. -/
def greedyStep (remaining d : ℚ) : List ℚ × ℚ :=
  if 0 < d ∧ d ≤ remaining then
    (List.replicate (⌊remaining / d⌋).toNat d,
     remaining - d * ((⌊remaining / d⌋).toNat : ℚ))
  else ([], remaining)

/-- The greedy decomposition described by the spec: iterate denominations
from largest to smallest, for each one appending it and subtracting it
from the running remaining weight as long as it still fits. -/
def greedyDecomposition (denoms : List ℚ) (w : ℚ) : List ℚ :=
  match denoms with
  | [] => []
  | d :: ds => (greedyStep w d).1 ++ greedyDecomposition ds (greedyStep w d).2

/-- Round half away from zero, the rounding mode named by the spec. -/
def roundHalfAwayFromZero (x : ℚ) : ℤ :=
  if 0 ≤ x then ⌊x + 1/2⌋ else -⌊-x + 1/2⌋

/-- Round to the nearest integer with ties to the even integer, stated
independently of pyRound. -/
def roundHalfToEven (x : ℚ) : ℤ :=
  if x - ⌊x⌋ = 1/2 then (if ⌊x⌋ % 2 = 0 then ⌊x⌋ else ⌊x⌋ + 1)
  else ⌊x + 1/2⌋

/-- The number of whole 2.5 kg units in a weight. -/
def units (w : ℚ) : ℕ := (⌊w / (5/2 : ℚ)⌋).toNat

/-- The greedy selection counted in units of the smallest denomination
2.5, under which the denominations 20, 10, 5, 2.5 become 8, 4, 2, 1. -/
def unitGreedy (n : ℕ) : List ℕ :=
  List.replicate (n / 8) 8 ++ List.replicate (n % 8 / 4) 4 ++
    List.replicate (n % 8 % 4 / 2) 2 ++ List.replicate (n % 8 % 4 % 2) 1

/-- The number of plates the greedy selection uses for n units. -/
def unitCount (n : ℕ) : ℕ :=
  n / 8 + n % 8 / 4 + n % 8 % 4 / 2 + n % 8 % 4 % 2

/-- The unit value of a default denomination: 20, 10, 5, 2.5 map to
8, 4, 2, 1. -/
def toUnit (x : ℚ) : ℕ :=
  if x = 20 then 8 else if x = 10 then 4 else if x = 5 then 2 else 1

/-- A number of 2.5 kg units, as a weight. -/
def toKg (u : ℕ) : ℚ := (u : ℚ) * (5/2)

/-- Dividing before taking the floor agrees with integer division of the
floor, for a positive integer divisor. -/
theorem floor_div_pos (x : ℚ) (d : ℤ) (hd : 0 < d) : ⌊x / (d : ℚ)⌋ = ⌊x⌋ / d := by
  have hdq : (0:ℚ) < (d : ℚ) := by exact_mod_cast hd
  have key : ∀ z : ℤ, z ≤ ⌊x / (d : ℚ)⌋ ↔ z ≤ ⌊x⌋ / d := by
    intro z
    rw [Int.le_floor, le_div_iff₀ hdq, Int.le_ediv_iff_mul_le hd, Int.le_floor]
    push_cast
    exact Iff.rfl
  exact le_antisymm ((key _).mp le_rfl) ((key _).mpr le_rfl)

/-- Closed form of the inner while loop for a positive plate: it appends
the plate exactly as many times as it fits into the remaining weight. -/
theorem plateLoop_eq (plate : ℚ) (hp : 0 < plate) (r : ℚ) :
    plateLoop plate r =
      (List.replicate (⌊r / plate⌋).toNat plate,
       r - plate * ((⌊r / plate⌋).toNat : ℚ)) := by
  generalize hn : (⌊r / plate⌋).toNat = n
  induction n generalizing r with
  | zero =>
    have hrp : r < plate := by
      by_contra hc
      push_neg at hc
      have h1 : (1:ℚ) ≤ r / plate := (one_le_div hp).mpr hc
      have h3 : (1:ℤ) ≤ ⌊r / plate⌋ := by
        rw [Int.le_floor]
        exact_mod_cast h1
      omega
    rw [plateLoop, dif_neg (by rintro ⟨h1, h2⟩; exact absurd h2 (not_le.mpr hrp))]
    simp
  | succ n ih =>
    have h3 : (1:ℤ) ≤ ⌊r / plate⌋ := by omega
    have h1 : (1:ℚ) ≤ r / plate := by
      have := Int.le_floor.mp h3
      exact_mod_cast this
    have hpr : plate ≤ r := (one_le_div hp).mp h1
    have hsub : (⌊(r - plate) / plate⌋).toNat = n := by
      have h2 : (r - plate) / plate = r / plate - 1 := by field_simp
      rw [h2, Int.floor_sub_one]
      omega
    rw [plateLoop, dif_pos ⟨hp, hpr⟩]
    rw [ih (r - plate) hsub]
    show (plate :: List.replicate n plate, r - plate - plate * (n : ℚ)) = _
    rw [Prod.mk.injEq]
    refine ⟨(List.replicate_succ plate n).symm, ?_⟩
    push_cast
    ring

/-- For a positive denomination the inner loop is exactly one greedy
step of the spec. -/
theorem plateLoop_eq_greedyStep (plate : ℚ) (hp : 0 < plate) (r : ℚ) :
    plateLoop plate r = greedyStep r plate := by
  rw [plateLoop_eq plate hp r, greedyStep]
  by_cases h : plate ≤ r
  · rw [if_pos ⟨hp, h⟩]
  · have hfl : (⌊r / plate⌋).toNat = 0 := by
      have hlt : r / plate < 1 := by
        rw [div_lt_one hp]
        exact lt_of_not_le h
      have hcast : (⌊r / plate⌋ : ℚ) < 1 := lt_of_le_of_lt (Int.floor_le _) hlt
      have : ⌊r / plate⌋ < 1 := by exact_mod_cast hcast
      omega
    rw [if_neg (by rintro ⟨h1, h2⟩; exact h h2), hfl]
    simp

/-- Over positive denominations, plate_selection is the greedy
decomposition of the spec. -/
theorem selectGo_eq_greedy (l : List ℚ) (hl : ∀ d ∈ l, 0 < d) (w : ℚ) :
    (selectGo l w).1 = greedyDecomposition l w := by
  induction l generalizing w with
  | nil => rfl
  | cons d ds ih =>
    have hd : 0 < d := hl d (List.mem_cons_self d ds)
    have hds : ∀ x ∈ ds, 0 < x := fun x hx => hl x (List.mem_cons_of_mem d hx)
    show ((plateLoop d w).1 ++ (selectGo ds (plateLoop d w).2).1, _).1 = _
    rw [greedyDecomposition, plateLoop_eq_greedyStep d hd w]
    simp only [List.append_cancel_left_eq]
    exact ih hds (greedyStep w d).2

/-- Behaviour of the inner loop on a denomination of k units of 2.5,
for a nonnegative remaining weight: it takes (units r / k) plates,
leaving a nonnegative remainder of (units r % k) units. -/
theorem plateLoop_unit (k : ℕ) (hk : 0 < k) (r : ℚ) (hr : 0 ≤ r) :
    plateLoop ((k : ℚ) * (5/2)) r =
      (List.replicate (units r / k) ((k : ℚ) * (5/2)),
       r - ((k * (units r / k) : ℕ) : ℚ) * (5/2)) ∧
      0 ≤ r - ((k * (units r / k) : ℕ) : ℚ) * (5/2) ∧
      units (r - ((k * (units r / k) : ℕ) : ℚ) * (5/2)) = units r % k := by
  have hd : (0:ℚ) < (k : ℚ) * (5/2) := by positivity
  have hNnn : (0:ℤ) ≤ ⌊r / (5/2 : ℚ)⌋ := Int.floor_nonneg.mpr (by positivity)
  have hNu : (⌊r / (5/2 : ℚ)⌋ : ℤ) = ((units r : ℕ) : ℤ) := by
    rw [units, Int.toNat_of_nonneg hNnn]
  have hdiv : r / ((k : ℚ) * (5/2)) = (r / (5/2 : ℚ)) / (((k:ℤ)) : ℚ) := by
    push_cast
    ring
  have hcount : ⌊r / ((k : ℚ) * (5/2))⌋ = ((units r / k : ℕ) : ℤ) := by
    rw [hdiv, floor_div_pos _ _ (by exact_mod_cast hk), hNu, ← Int.natCast_div]
  have hcount2 : (⌊r / ((k : ℚ) * (5/2))⌋).toNat = units r / k := by
    rw [hcount]
    rfl
  have hmain := plateLoop_eq ((k : ℚ) * (5/2)) hd r
  rw [hcount2] at hmain
  have harith : r - (k : ℚ) * (5/2) * ((units r / k : ℕ) : ℚ)
      = r - ((k * (units r / k) : ℕ) : ℚ) * (5/2) := by
    push_cast
    ring
  rw [harith] at hmain
  have hur : ((units r : ℕ) : ℚ) * (5/2) ≤ r := by
    have h1 : ((units r : ℕ) : ℚ) ≤ r / (5/2 : ℚ) := by
      have h2 := Int.floor_le (r / (5/2 : ℚ))
      rw [hNu] at h2
      exact_mod_cast h2
    have h3 := mul_le_mul_of_nonneg_right h1 (by norm_num : (0:ℚ) ≤ 5/2)
    have h4 : (r / (5/2:ℚ)) * (5/2) = r := div_mul_cancel₀ r (by norm_num)
    linarith
  have hkdiv : (k * (units r / k) : ℕ) ≤ units r := by
    rw [mul_comm]
    exact Nat.div_mul_le_self _ _
  have hnn : 0 ≤ r - ((k * (units r / k) : ℕ) : ℚ) * (5/2) := by
    have hc : ((k * (units r / k) : ℕ) : ℚ) ≤ ((units r : ℕ) : ℚ) := by
      exact_mod_cast hkdiv
    have h3 := mul_le_mul_of_nonneg_right hc (by norm_num : (0:ℚ) ≤ 5/2)
    linarith
  refine ⟨hmain, hnn, ?_⟩
  have hremdiv : (r - ((k * (units r / k) : ℕ) : ℚ) * (5/2)) / (5/2:ℚ)
      = r / (5/2:ℚ) - ((k * (units r / k) : ℕ) : ℚ) := by
    ring
  rw [units, hremdiv, Int.floor_sub_nat, hNu]
  have hdm := Nat.div_add_mod (units r) k
  generalize hq : k * (units r / k) = c at hdm ⊢
  omega

/-- The inner loop leaves a negative remaining weight untouched. -/
theorem plateLoop_neg (d : ℚ) (hd : 0 < d) (r : ℚ) (hr : r < 0) :
    plateLoop d r = ([], r) := by
  rw [plateLoop_eq d hd r]
  have h1 : r / d < 0 := div_neg_of_neg_of_pos hr hd
  have h2 : (⌊r / d⌋ : ℚ) < 0 := lt_of_le_of_lt (Int.floor_le _) h1
  have h3 : ⌊r / d⌋ < 0 := by exact_mod_cast h2
  have h4 : (⌊r / d⌋).toNat = 0 := by omega
  rw [h4]
  simp

/-- For a negative weight the greedy selection is empty. -/
theorem plate_selection_neg (w : ℚ) (hw : w < 0) :
    plate_selection w defaultPlates = [] := by
  simp only [plate_selection, defaultPlates, selectGo,
    plateLoop_neg 20 (by norm_num) w hw, plateLoop_neg 10 (by norm_num) w hw,
    plateLoop_neg 5 (by norm_num) w hw, plateLoop_neg (2.5:ℚ) (by norm_num) w hw]
  rfl

/-- For a nonnegative weight, plate_selection over the default
denominations is the unit greedy selection scaled back by 2.5. -/
theorem plate_selection_units (w : ℚ) (hw : 0 ≤ w) :
    plate_selection w defaultPlates = (unitGreedy (units w)).map toKg := by
  obtain ⟨he8, hn8, hu8⟩ := plateLoop_unit 8 (by norm_num) w hw
  rw [show ((8:ℕ) : ℚ) * (5/2) = 20 from by norm_num] at he8
  obtain ⟨he4, hn4, hu4⟩ := plateLoop_unit 4 (by norm_num) _ hn8
  rw [hu8] at he4 hn4 hu4
  rw [show ((4:ℕ) : ℚ) * (5/2) = 10 from by norm_num] at he4
  obtain ⟨he2, hn2, hu2⟩ := plateLoop_unit 2 (by norm_num) _ hn4
  rw [hu4] at he2 hn2 hu2
  rw [show ((2:ℕ) : ℚ) * (5/2) = 5 from by norm_num] at he2
  obtain ⟨he1, hn1, hu1⟩ := plateLoop_unit 1 (by norm_num) _ hn2
  rw [hu2] at he1
  rw [show ((1:ℕ) : ℚ) * (5/2) = 2.5 from by norm_num] at he1
  simp only [plate_selection, defaultPlates, selectGo,
    he8, he4, he2, he1, unitGreedy, List.map_append, List.map_replicate,
    List.append_nil, Nat.div_one]
  norm_num [toKg]

/-- Summing after scaling units back to kilograms. -/
theorem map_toKg_sum (L : List ℕ) : (L.map toKg).sum = toKg L.sum := by
  induction L with
  | nil => simp [toKg]
  | cons a l ih =>
    simp only [List.map_cons, List.sum_cons, ih, toKg]
    push_cast
    ring

/-- The unit greedy selection covers all n units. -/
theorem unitGreedy_sum (n : ℕ) : (unitGreedy n).sum = n := by
  simp only [unitGreedy, List.sum_append, List.sum_replicate, smul_eq_mul]
  omega

/-- The unit greedy selection has unitCount n plates. -/
theorem unitGreedy_length (n : ℕ) : (unitGreedy n).length = unitCount n := by
  simp only [unitGreedy, unitCount, List.length_append, List.length_replicate]

/-- A negative weight holds no whole unit. -/
theorem units_of_neg (w : ℚ) (hw : w < 0) : units w = 0 := by
  have h1 : w / (5/2 : ℚ) < 0 := div_neg_of_neg_of_pos hw (by norm_num)
  have h2 : (⌊w / (5/2 : ℚ)⌋ : ℚ) < 0 := lt_of_le_of_lt (Int.floor_le _) h1
  have h3 : ⌊w / (5/2 : ℚ)⌋ < 0 := by exact_mod_cast h2
  rw [units]
  omega

/-- The greedy selection sums to exactly the whole 2.5 kg units of the
weight. -/
theorem plate_selection_sum (w : ℚ) (hw : 0 ≤ w) :
    (plate_selection w defaultPlates).sum = toKg (units w) := by
  rw [plate_selection_units w hw, map_toKg_sum, unitGreedy_sum]

/-- The greedy selection has unitCount (units w) plates, for any input. -/
theorem plate_selection_length (w : ℚ) :
    (plate_selection w defaultPlates).length = unitCount (units w) := by
  rcases lt_or_le w 0 with hw | hw
  · rw [plate_selection_neg w hw, units_of_neg w hw]
    rfl
  · rw [plate_selection_units w hw, List.length_map, unitGreedy_length]

/-- The greedy plate count never exceeds the number of units. -/
theorem unitCount_le (n : ℕ) : unitCount n ≤ n := by
  unfold unitCount
  omega

/-- Adding one denomination increases the greedy plate count by at most
one. -/
theorem unitCount_add_le (c m : ℕ) (hc : c ∈ ([8, 4, 2, 1] : List ℕ)) :
    unitCount (c + m) ≤ unitCount m + 1 := by
  simp only [List.mem_cons, List.not_mem_nil, or_false] at hc
  rcases hc with rfl | rfl | rfl | rfl <;> (unfold unitCount; omega)

/-- Any selection over the unit denominations uses at least the greedy
number of plates for the amount it covers. -/
theorem unitCount_le_length (L : List ℕ)
    (hL : ∀ u ∈ L, u ∈ ([8, 4, 2, 1] : List ℕ)) :
    unitCount L.sum ≤ L.length := by
  induction L with
  | nil => simp [unitCount]
  | cons a l ih =>
    have ha := hL a (List.mem_cons_self a l)
    have hl := fun u hu => hL u (List.mem_cons_of_mem a hu)
    have h1 := unitCount_add_le a l.sum ha
    have h2 := ih hl
    simp only [List.sum_cons, List.length_cons]
    omega

/-- The whole units of a weight cover it to within one smallest plate. -/
theorem units_le (w : ℚ) (hw : 0 ≤ w) :
    toKg (units w) ≤ w ∧ w < toKg (units w) + 5/2 := by
  have hNnn : (0:ℤ) ≤ ⌊w / (5/2 : ℚ)⌋ := Int.floor_nonneg.mpr (by positivity)
  have hNu : ((units w : ℕ) : ℚ) = ((⌊w / (5/2 : ℚ)⌋ : ℤ) : ℚ) := by
    rw [units]
    exact_mod_cast congrArg (fun z : ℤ => (z : ℚ)) (Int.toNat_of_nonneg hNnn)
  have hfl := Int.floor_le (w / (5/2 : ℚ))
  have hcl := Int.lt_floor_add_one (w / (5/2 : ℚ))
  have hmul : (w / (5/2 : ℚ)) * (5/2) = w := div_mul_cancel₀ w (by norm_num)
  constructor
  · have h3 := mul_le_mul_of_nonneg_right hfl (by norm_num : (0:ℚ) ≤ 5/2)
    rw [toKg, hNu]
    linarith
  · have h3 := mul_lt_mul_of_pos_right hcl (by norm_num : (0:ℚ) < 5/2)
    rw [toKg, hNu]
    linarith

/-- The Python round lands within one half of its argument. -/
theorem pyRound_bounds (y : ℚ) :
    y - 1/2 ≤ (pyRound y : ℚ) ∧ (pyRound y : ℚ) ≤ y + 1/2 := by
  have hf := Int.floor_le y
  have hc := Int.lt_floor_add_one y
  unfold pyRound
  split_ifs with h1 h2 h3 <;> constructor <;> push_cast <;> linarith

/-- Python round to two digits lands within 1/200 of its argument. -/
theorem pyRound2_bounds (x : ℚ) :
    x - 1/200 ≤ pyRound2 x ∧ pyRound2 x ≤ x + 1/200 := by
  obtain ⟨h1, h2⟩ := pyRound_bounds (x * 100)
  unfold pyRound2
  constructor <;> linarith

/-- The greedy selection sum never exceeds the rounded weight-per-side
field, and falls short of it by less than 5. -/
theorem round2_plate_bound (x : ℚ) (hx : 0 ≤ x) :
    (plate_selection x defaultPlates).sum ≤ pyRound2 x ∧
      pyRound2 x - (plate_selection x defaultPlates).sum < 5 := by
  rw [plate_selection_sum x hx]
  obtain ⟨hle, hlt⟩ := units_le x hx
  obtain ⟨hp1, hp2⟩ := pyRound_bounds (x * 100)
  have hint : (250 * (units x : ℤ)) ≤ pyRound (x * 100) := by
    have h1 : ((250 * (units x : ℤ) : ℤ) : ℚ) - 1 < ((pyRound (x * 100) : ℤ) : ℚ) := by
      rw [toKg] at hle
      push_cast
      linarith
    have h2 : (250 * (units x : ℤ)) - 1 < pyRound (x * 100) := by exact_mod_cast h1
    omega
  constructor
  · have h3 : ((250 * (units x : ℤ) : ℤ) : ℚ) ≤ ((pyRound (x * 100) : ℤ) : ℚ) := by
      exact_mod_cast hint
    rw [pyRound2, toKg]
    push_cast at h3 ⊢
    linarith
  · rw [pyRound2, toKg]
    rw [toKg] at hlt
    linarith

/-- pyRound is round-half-to-even. -/
theorem pyRound_eq_roundHalfToEven (x : ℚ) : pyRound x = roundHalfToEven x := by
  have hf := Int.floor_le x
  have hc := Int.lt_floor_add_one x
  rcases lt_trichotomy (x - ⌊x⌋) (1/2) with h1 | h1 | h1
  · have hne : ¬ (x - ⌊x⌋ = 1/2) := by linarith
    have hfl : ⌊x + 1/2⌋ = ⌊x⌋ := by
      rw [Int.floor_eq_iff]
      constructor
      · linarith
      · linarith
    rw [pyRound, roundHalfToEven, if_pos h1, if_neg hne, hfl]
  · have hnlt : ¬ (x - ⌊x⌋ < 1/2) := by linarith
    have hngt : ¬ (1/2 < x - ⌊x⌋) := by linarith
    rw [pyRound, roundHalfToEven, if_neg hnlt, if_neg hngt, if_pos h1]
  · have hnlt : ¬ (x - ⌊x⌋ < 1/2) := by linarith
    have hne : ¬ (x - ⌊x⌋ = 1/2) := by linarith
    have hfl : ⌊x + 1/2⌋ = ⌊x⌋ + 1 := by
      rw [Int.floor_eq_iff]
      constructor
      · push_cast
        linarith
      · push_cast
        linarith
    rw [pyRound, roundHalfToEven, if_neg hnlt, if_pos h1, if_neg hne, hfl]

/-- toUnit inverts toKg on the default denominations and lands in the
unit denominations. -/
theorem toUnit_spec (x : ℚ) (hx : x ∈ defaultPlates) :
    toKg (toUnit x) = x ∧ toUnit x ∈ ([8, 4, 2, 1] : List ℕ) := by
  simp only [defaultPlates, List.mem_cons, List.not_mem_nil, or_false] at hx
  rcases hx with rfl | rfl | rfl | rfl <;>
    exact ⟨by norm_num [toUnit, toKg], by norm_num [toUnit]⟩

/-- A selection over the default denominations, viewed in units. -/
theorem map_toUnit (S : List ℚ) (hS : ∀ x ∈ S, x ∈ defaultPlates) :
    S.sum = toKg ((S.map toUnit).sum) ∧
      ∀ u ∈ S.map toUnit, u ∈ ([8, 4, 2, 1] : List ℕ) := by
  induction S with
  | nil => simp [toKg]
  | cons a l ih =>
    obtain ⟨ha1, ha2⟩ := toUnit_spec a (hS a (List.mem_cons_self a l))
    obtain ⟨ih1, ih2⟩ := ih (fun x hx => hS x (List.mem_cons_of_mem a hx))
    constructor
    · rw [List.sum_cons, List.map_cons, List.sum_cons, ih1, toKg, toKg]
      rw [toKg] at ha1
      push_cast
      linarith
    · intro u hu
      simp only [List.map_cons, List.mem_cons] at hu
      rcases hu with rfl | hu
      · exact ha2
      · exact ih2 u hu

/-- Every plate the greedy selection picks is a default denomination. -/
theorem plate_selection_mem (w : ℚ) :
    ∀ x ∈ plate_selection w defaultPlates, x ∈ defaultPlates := by
  rcases lt_or_le w 0 with hw | hw
  · rw [plate_selection_neg w hw]
    intro x hx
    exact absurd hx (List.not_mem_nil x)
  · rw [plate_selection_units w hw]
    intro x hx
    rw [List.mem_map] at hx
    obtain ⟨u, hu, rfl⟩ := hx
    simp only [unitGreedy, List.mem_append, List.mem_replicate] at hu
    rcases hu with ((⟨h1, rfl⟩ | ⟨h1, rfl⟩) | ⟨h1, rfl⟩) | ⟨h1, rfl⟩ <;>
      norm_num [toKg, defaultPlates]

/-- Evaluation helper for units at concrete weights. -/
theorem units_eval (w : ℚ) (n : ℕ) (h : ⌊w / (5/2 : ℚ)⌋ = (n : ℤ)) : units w = n := by
  rw [units, h]
  rfl

/-- Bind on a success just applies the continuation. -/
theorem except_bind_ok {α β : Type} (a : α) (f : α → Except String β) :
    (Except.ok a : Except String α).bind f = f a := rfl

/-- Bind on an error propagates the error. -/
theorem except_bind_error {α β : Type} (e : String) (f : α → Except String β) :
    (Except.error e : Except String α).bind f = Except.error e := rfl

/-- Inverting a successful plate_weight call. -/
theorem plate_weight_ok (w b p : ℚ) (h : plate_weight w b = Except.ok p) :
    b ≤ w ∧ p = (w - b) / 2 := by
  rw [plate_weight] at h
  by_cases hc : w < b
  · rw [if_pos hc] at h
    exact absurd h (by simp)
  · rw [if_neg hc] at h
    simp only [Except.ok.injEq] at h
    exact ⟨not_lt.mp hc, h.symm⟩

/-- The output of get_workout_data at target 100. -/
def plan100 : WorkoutData :=
  { warmup_sets := [
      { set := ("2 sets"), reps := 5, weight := 20, weight_per_side := 0,
        plates := PlatesField.text ("None (just the bar)") },
      { set := ("1 set"), reps := 5, weight := 45, weight_per_side := 25/2,
        plates := PlatesField.list [10, 5/2] },
      { set := ("1 set"), reps := 3, weight := 65, weight_per_side := 45/2,
        plates := PlatesField.list [20, 5/2] },
      { set := ("1 set"), reps := 2, weight := 85, weight_per_side := 65/2,
        plates := PlatesField.list [20, 10, 5/2] } ],
    target := { weight := 100, weight_per_side := 40, plates := [20, 20] } }

/-- Full evaluation of the plan at target 100. -/
theorem get_workout_data_100 : get_workout_data 100 = Except.ok plan100 := by
  have hw : calculate_warmup_weights 100 = (45, 65, 85) := by
    norm_num [calculate_warmup_weights, pyRound]
  have h45 : plate_weight 45 20 = Except.ok (25/2) := by norm_num [plate_weight]
  have h65 : plate_weight 65 20 = Except.ok (45/2) := by norm_num [plate_weight]
  have h85 : plate_weight 85 20 = Except.ok (65/2) := by norm_num [plate_weight]
  have ht : plate_weight 100 20 = Except.ok 40 := by norm_num [plate_weight]
  have p45 : plate_selection (25/2) defaultPlates = [10, 5/2] := by
    rw [plate_selection_units _ (by norm_num), units_eval (25/2) 5 (by norm_num),
      show unitGreedy 5 = [4, 1] from rfl]
    norm_num [toKg]
  have p65 : plate_selection (45/2) defaultPlates = [20, 5/2] := by
    rw [plate_selection_units _ (by norm_num), units_eval (45/2) 9 (by norm_num),
      show unitGreedy 9 = [8, 1] from rfl]
    norm_num [toKg]
  have p85 : plate_selection (65/2) defaultPlates = [20, 10, 5/2] := by
    rw [plate_selection_units _ (by norm_num), units_eval (65/2) 13 (by norm_num),
      show unitGreedy 13 = [8, 4, 1] from rfl]
    norm_num [toKg]
  have pt : plate_selection 40 defaultPlates = [20, 20] := by
    rw [plate_selection_units _ (by norm_num), units_eval 40 16 (by norm_num),
      show unitGreedy 16 = [8, 8] from rfl]
    norm_num [toKg]
  have r45 : pyRound2 (25/2) = 25/2 := by norm_num [pyRound2, pyRound]
  have r65 : pyRound2 (45/2) = 45/2 := by norm_num [pyRound2, pyRound]
  have r85 : pyRound2 (65/2) = 65/2 := by norm_num [pyRound2, pyRound]
  have rt : pyRound2 (40:ℚ) = 40 := by norm_num [pyRound2, pyRound]
  rewrite [get_workout_data]
  rewrite [hw]
  try dsimp only
  rewrite [h45, except_bind_ok]
  try dsimp only
  rewrite [h65, except_bind_ok]
  try dsimp only
  rewrite [h85, except_bind_ok]
  try dsimp only
  rewrite [ht, except_bind_ok]
  try dsimp only
  rewrite [p45, p65, p85, pt, r45, r65, r85, rt]
  rfl

/-- At target 30 the 45 percent warmup weight is 15, below the bar, so
the first plate_weight call fails and the plan construction errors. -/
theorem get_workout_data_30 :
    get_workout_data 30 =
      Except.error ("Total weight must be greater than or equal to the bar weight.") := by
  have hw : calculate_warmup_weights 30 = (15, 20, 25) := by
    norm_num [calculate_warmup_weights, pyRound]
  have h45 : plate_weight 15 20 =
      Except.error ("Total weight must be greater than or equal to the bar weight.") := by
    norm_num [plate_weight]
  rewrite [get_workout_data]
  rewrite [hw]
  try dsimp only
  rewrite [h45, except_bind_error]
  rfl

/-- Inversion of a successful get_workout_data call: every plate_weight
call succeeded, the per-side weights are nonnegative and the plan has
the literal shape of the dict built in src/app.py. -/
theorem get_workout_data_ok (t : ℚ) (d : WorkoutData)
    (h : get_workout_data t = Except.ok d) :
    ∃ p45 p65 p85 pt : ℚ,
      plate_weight (calculate_warmup_weights t).1 20 = Except.ok p45 ∧
      plate_weight (calculate_warmup_weights t).2.1 20 = Except.ok p65 ∧
      plate_weight (calculate_warmup_weights t).2.2 20 = Except.ok p85 ∧
      plate_weight t 20 = Except.ok pt ∧
      0 ≤ p45 ∧ 0 ≤ p65 ∧ 0 ≤ p85 ∧ 0 ≤ pt ∧
      d = { warmup_sets := [
              { set := ("2 sets"), reps := 5, weight := 20, weight_per_side := 0,
                plates := PlatesField.text ("None (just the bar)") },
              { set := ("1 set"), reps := 5, weight := (calculate_warmup_weights t).1,
                weight_per_side := pyRound2 p45,
                plates := PlatesField.list (plate_selection p45 defaultPlates) },
              { set := ("1 set"), reps := 3, weight := (calculate_warmup_weights t).2.1,
                weight_per_side := pyRound2 p65,
                plates := PlatesField.list (plate_selection p65 defaultPlates) },
              { set := ("1 set"), reps := 2, weight := (calculate_warmup_weights t).2.2,
                weight_per_side := pyRound2 p85,
                plates := PlatesField.list (plate_selection p85 defaultPlates) } ],
            target := { weight := t, weight_per_side := pyRound2 pt,
                        plates := plate_selection pt defaultPlates } } := by
  rw [get_workout_data] at h
  rcases hc45 : plate_weight (calculate_warmup_weights t).1 20 with e | p45
  · rw [hc45, except_bind_error] at h
    exact absurd h (by simp)
  rw [hc45, except_bind_ok] at h
  rcases hc65 : plate_weight (calculate_warmup_weights t).2.1 20 with e | p65
  · rw [hc65, except_bind_error] at h
    exact absurd h (by simp)
  rw [hc65, except_bind_ok] at h
  rcases hc85 : plate_weight (calculate_warmup_weights t).2.2 20 with e | p85
  · rw [hc85, except_bind_error] at h
    exact absurd h (by simp)
  rw [hc85, except_bind_ok] at h
  rcases hct : plate_weight t 20 with e | pt
  · rw [hct, except_bind_error] at h
    exact absurd h (by simp)
  rw [hct, except_bind_ok] at h
  simp only [Except.ok.injEq] at h
  obtain ⟨hb45, he45⟩ := plate_weight_ok _ _ _ hc45
  obtain ⟨hb65, he65⟩ := plate_weight_ok _ _ _ hc65
  obtain ⟨hb85, he85⟩ := plate_weight_ok _ _ _ hc85
  obtain ⟨hbt, het⟩ := plate_weight_ok _ _ _ hct
  exact ⟨p45, p65, p85, pt, rfl, rfl, rfl, rfl,
    by rw [he45]; linarith, by rw [he65]; linarith,
    by rw [he85]; linarith, by rw [het]; linarith, h.symm⟩

/-- The per-side weight and denomination list of each of the five
entries of a plan, in order. -/
def planEntries (d : WorkoutData) : List (ℚ × List ℚ) :=
  d.warmup_sets.map (fun s => (s.weight_per_side, s.plates.denoms)) ++
    [(d.target.weight_per_side, d.target.plates)]

/-- C1: for every nonnegative weight, plate_selection with the default
denominations equals the greedy decomposition described by the spec;
selectPlates 40 = [20, 20], selectPlates 42.5 = [20, 20, 2.5],
selectPlates 3 = [2.5], and every zero or negative weight yields the
empty sequence. -/
theorem claim1_plate_selection_greedy (w : ℚ) :
    (0 ≤ w → plate_selection w defaultPlates = greedyDecomposition defaultPlates w) ∧
    plate_selection 40 defaultPlates = [20, 20] ∧
    plate_selection (42.5 : ℚ) defaultPlates = [20, 20, 2.5] ∧
    plate_selection 3 defaultPlates = [2.5] ∧
    (w ≤ 0 → plate_selection w defaultPlates = []) := by
  refine ⟨?_, ?_, ?_, ?_, ?_⟩
  · intro _
    rw [plate_selection]
    refine selectGo_eq_greedy defaultPlates ?_ w
    intro d hd
    simp only [defaultPlates, List.mem_cons, List.not_mem_nil, or_false] at hd
    rcases hd with rfl | rfl | rfl | rfl <;> norm_num
  · rw [plate_selection_units _ (by norm_num), units_eval 40 16 (by norm_num),
      show unitGreedy 16 = [8, 8] from rfl]
    norm_num [toKg]
  · rw [plate_selection_units _ (by norm_num), units_eval (42.5:ℚ) 17 (by norm_num),
      show unitGreedy 17 = [8, 8, 1] from rfl]
    norm_num [toKg]
  · rw [plate_selection_units _ (by norm_num), units_eval 3 1 (by norm_num),
      show unitGreedy 1 = [1] from rfl]
    norm_num [toKg]
  · intro hw
    rcases lt_or_eq_of_le hw with hlt | heq
    · exact plate_selection_neg w hlt
    · subst heq
      rw [plate_selection_units 0 le_rfl, units_eval 0 0 (by norm_num),
        show unitGreedy 0 = [] from rfl]
      rfl

/-- Witness for C1: the refinement at weight 40 and the empty result at
weight 0. -/
theorem claim1_witness :
    plate_selection 40 defaultPlates = greedyDecomposition defaultPlates 40 ∧
    plate_selection 0 defaultPlates = [] :=
  ⟨(claim1_plate_selection_greedy 40).1 (by norm_num),
   (claim1_plate_selection_greedy 0).2.2.2.2 (by norm_num)⟩

/-- C2: plate_weight returns (total - bar) / 2 when total is at least
bar, and fails with the ValueError exactly when total < bar; the
reference values at 100, 20 and 15 hold. -/
theorem claim2_plate_weight (total bar : ℚ) :
    (bar ≤ total → plate_weight total bar = Except.ok ((total - bar) / 2)) ∧
    (total < bar →
      plate_weight total bar =
        Except.error ("Total weight must be greater than or equal to the bar weight.")) ∧
    ((∃ e, plate_weight total bar = Except.error e) ↔ total < bar) ∧
    plate_weight 100 20 = Except.ok 40 ∧
    plate_weight 20 20 = Except.ok 0 ∧
    plate_weight 15 20 =
      Except.error ("Total weight must be greater than or equal to the bar weight.") := by
  refine ⟨?_, ?_, ⟨?_, ?_⟩, by norm_num [plate_weight], by norm_num [plate_weight],
    by norm_num [plate_weight]⟩
  · intro hle
    rw [plate_weight, if_neg (not_lt.mpr hle)]
  · intro hlt
    rw [plate_weight, if_pos hlt]
  · rintro ⟨e, he⟩
    by_contra hc
    push_neg at hc
    rw [plate_weight, if_neg (not_lt.mpr hc)] at he
    exact absurd he (by simp)
  · intro hlt
    exact ⟨_, by rw [plate_weight, if_pos hlt]⟩

/-- Witness for C2 at the concrete inputs 100 and 15. -/
theorem claim2_witness :
    plate_weight 100 20 = Except.ok ((100 - 20) / 2) ∧
    plate_weight 15 20 =
      Except.error ("Total weight must be greater than or equal to the bar weight.") :=
  ⟨(claim2_plate_weight 100 20).1 (by norm_num),
   (claim2_plate_weight 15 20).2.1 (by norm_num)⟩

/-- C3: calculate_warmup_weights t is the triple of round(t*pct/5)*5
for pct 0.45, 0.65, 0.85 under the Python round, with the reference
values at 100 and 140. -/
theorem claim3_warmup_weights (t : ℚ) :
    calculate_warmup_weights t =
      (((pyRound (t * 0.45 / 5) * 5 : ℤ) : ℚ), ((pyRound (t * 0.65 / 5) * 5 : ℤ) : ℚ),
        ((pyRound (t * 0.85 / 5) * 5 : ℤ) : ℚ)) ∧
    calculate_warmup_weights 100 = (45, 65, 85) ∧
    calculate_warmup_weights 140 = (65, 90, 120) := by
  refine ⟨rfl, ?_, ?_⟩ <;> norm_num [calculate_warmup_weights, pyRound]

/-- C4 counterexample: the target 30 is positive, yet get_workout_data
fails rather than returning a five entry plan. -/
theorem claim4_counterexample :
    (0:ℚ) < 30 ∧
      get_workout_data 30 =
        Except.error ("Total weight must be greater than or equal to the bar weight.") :=
  ⟨by norm_num, get_workout_data_30⟩

/-- C4 amended: whenever get_workout_data succeeds, the plan has
exactly the five entries bar-only, 45, 65, 85 percent and target, in
that order, with reps 5, 5, 3, 2 on the first four and each non-bar
entry carrying the total weight, the rounded per-side load and the
greedy plate selection of the per-side load. -/
theorem claim4_plan_structure (t : ℚ) (d : WorkoutData)
    (h : get_workout_data t = Except.ok d) :
    ∃ p45 p65 p85 pt : ℚ,
      plate_weight (calculate_warmup_weights t).1 20 = Except.ok p45 ∧
      plate_weight (calculate_warmup_weights t).2.1 20 = Except.ok p65 ∧
      plate_weight (calculate_warmup_weights t).2.2 20 = Except.ok p85 ∧
      plate_weight t 20 = Except.ok pt ∧
      d.warmup_sets = [
        { set := ("2 sets"), reps := 5, weight := 20, weight_per_side := 0,
          plates := PlatesField.text ("None (just the bar)") },
        { set := ("1 set"), reps := 5, weight := (calculate_warmup_weights t).1,
          weight_per_side := pyRound2 p45,
          plates := PlatesField.list (plate_selection p45 defaultPlates) },
        { set := ("1 set"), reps := 3, weight := (calculate_warmup_weights t).2.1,
          weight_per_side := pyRound2 p65,
          plates := PlatesField.list (plate_selection p65 defaultPlates) },
        { set := ("1 set"), reps := 2, weight := (calculate_warmup_weights t).2.2,
          weight_per_side := pyRound2 p85,
          plates := PlatesField.list (plate_selection p85 defaultPlates) } ] ∧
      d.target = { weight := t, weight_per_side := pyRound2 pt,
                   plates := plate_selection pt defaultPlates } := by
  obtain ⟨p45, p65, p85, pt, h1, h2, h3, h4, _, _, _, _, hd⟩ := get_workout_data_ok t d h
  exact ⟨p45, p65, p85, pt, h1, h2, h3, h4, by rw [hd], by rw [hd]⟩

/-- Witness for C4 at target 100. -/
theorem claim4_witness :
    ∃ p45 p65 p85 pt : ℚ,
      plate_weight (calculate_warmup_weights 100).1 20 = Except.ok p45 ∧
      plate_weight (calculate_warmup_weights 100).2.1 20 = Except.ok p65 ∧
      plate_weight (calculate_warmup_weights 100).2.2 20 = Except.ok p85 ∧
      plate_weight 100 20 = Except.ok pt ∧
      plan100.warmup_sets = [
        { set := ("2 sets"), reps := 5, weight := 20, weight_per_side := 0,
          plates := PlatesField.text ("None (just the bar)") },
        { set := ("1 set"), reps := 5, weight := (calculate_warmup_weights 100).1,
          weight_per_side := pyRound2 p45,
          plates := PlatesField.list (plate_selection p45 defaultPlates) },
        { set := ("1 set"), reps := 3, weight := (calculate_warmup_weights 100).2.1,
          weight_per_side := pyRound2 p65,
          plates := PlatesField.list (plate_selection p65 defaultPlates) },
        { set := ("1 set"), reps := 2, weight := (calculate_warmup_weights 100).2.2,
          weight_per_side := pyRound2 p85,
          plates := PlatesField.list (plate_selection p85 defaultPlates) } ] ∧
      plan100.target = { weight := 100, weight_per_side := pyRound2 pt,
                         plates := plate_selection pt defaultPlates } :=
  claim4_plan_structure 100 plan100 get_workout_data_100

/-- C5: over the default denominations the greedy selection is optimal:
its sum is feasible, no feasible selection has a larger sum, and no
selection with the same sum has fewer plates. -/
theorem claim5_greedy_optimal (w : ℚ) (hw : 0 ≤ w) (S : List ℚ)
    (hS : ∀ x ∈ S, x ∈ defaultPlates) (hsum : S.sum ≤ w) :
    (plate_selection w defaultPlates).sum ≤ w ∧
    (∀ x ∈ plate_selection w defaultPlates, x ∈ defaultPlates) ∧
    S.sum ≤ (plate_selection w defaultPlates).sum ∧
    (S.sum = (plate_selection w defaultPlates).sum →
      (plate_selection w defaultPlates).length ≤ S.length) := by
  obtain ⟨hSsum, hSmem⟩ := map_toUnit S hS
  have hsum_eq := plate_selection_sum w hw
  obtain ⟨hle, hlt⟩ := units_le w hw
  have hq : ((List.map toUnit S).sum : ℚ) ≤ ((units w : ℕ) : ℚ) := by
    by_contra hcon
    push_neg at hcon
    have h1 : (units w) + 1 ≤ (List.map toUnit S).sum := by exact_mod_cast hcon
    have h2 : ((units w : ℕ) : ℚ) + 1 ≤ ((List.map toUnit S).sum : ℚ) := by
      exact_mod_cast h1
    rw [toKg] at hSsum hle hlt
    have h3 := mul_le_mul_of_nonneg_right h2 (by norm_num : (0:ℚ) ≤ 5/2)
    linarith
  refine ⟨?_, plate_selection_mem w, ?_, ?_⟩
  · rw [hsum_eq]
    exact hle
  · rw [hsum_eq, hSsum, toKg, toKg]
    have h3 := mul_le_mul_of_nonneg_right hq (by norm_num : (0:ℚ) ≤ 5/2)
    linarith
  · intro heq
    have h4 : toKg ((List.map toUnit S).sum) = toKg (units w) := by
      rw [← hSsum, heq, hsum_eq]
    simp only [toKg] at h4
    have h5 : ((List.map toUnit S).sum : ℚ) = ((units w : ℕ) : ℚ) :=
      mul_right_cancel₀ (by norm_num) h4
    have h6 : (List.map toUnit S).sum = units w := by exact_mod_cast h5
    rw [plate_selection_length, ← h6]
    have h7 := unitCount_le_length (List.map toUnit S) hSmem
    rwa [List.length_map] at h7

/-- Witness for C5 at weight 3 with the selection [2.5]. -/
theorem claim5_witness :
    ([(2.5:ℚ)].sum ≤ (plate_selection 3 defaultPlates).sum) ∧
    (plate_selection 3 defaultPlates).sum ≤ 3 := by
  have h := claim5_greedy_optimal 3 (by norm_num) [(2.5:ℚ)]
    (by intro x hx
        simp only [List.mem_singleton] at hx
        subst hx
        norm_num [defaultPlates])
    (by norm_num)
  exact ⟨h.2.2.1, h.1⟩

/-- C6 counterexample: at target 50 and pct 0.45 the code yields 20
while rounding half away from zero would yield 25. -/
theorem claim6_counterexample :
    (calculate_warmup_weights 50).1 = 20 ∧
    ((roundHalfAwayFromZero (50 * 0.45 / 5) * 5 : ℤ) : ℚ) = 25 := by
  constructor
  · norm_num [calculate_warmup_weights, pyRound]
  · norm_num [roundHalfAwayFromZero]

/-- C6 amended: the rounding used by calculate_warmup_weights is
round-half-to-even, Python's built-in mode; in particular the exact
half 4.5 arising at t = 50 with pct 0.45 rounds down to 4, giving the
warmup weights (20, 30, 40). -/
theorem claim6_rounding (t : ℚ) :
    (∀ x : ℚ, pyRound x = roundHalfToEven x) ∧
    calculate_warmup_weights t =
      (((roundHalfToEven (t * 0.45 / 5) * 5 : ℤ) : ℚ),
        ((roundHalfToEven (t * 0.65 / 5) * 5 : ℤ) : ℚ),
        ((roundHalfToEven (t * 0.85 / 5) * 5 : ℤ) : ℚ)) ∧
    calculate_warmup_weights 50 = (20, 30, 40) := by
  refine ⟨pyRound_eq_roundHalfToEven, ?_, ?_⟩
  · rw [calculate_warmup_weights, pyRound_eq_roundHalfToEven, pyRound_eq_roundHalfToEven,
      pyRound_eq_roundHalfToEven]
  · norm_num [calculate_warmup_weights, pyRound]

/-- C7 counterexample: in the plan for target 100 the target entry has
per-side load 40 and plates [20, 20], and 2 * (20 + 20) = 80 exceeds
40, refuting the claimed inequality 2 * sum ≤ loadPerSide. -/
theorem claim7_counterexample :
    get_workout_data 100 = Except.ok plan100 ∧
    ((40:ℚ), ([20, 20] : List ℚ)) ∈ planEntries plan100 ∧
    ¬ (2 * ([20, 20] : List ℚ).sum ≤ (40:ℚ)) := by
  refine ⟨get_workout_data_100, ?_, by norm_num⟩
  simp [planEntries, plan100]

/-- C7 amended: in every successful plan, each entry satisfies
sum(plates) ≤ loadPerSide and loadPerSide - sum(plates) <
2 * smallest denomination. -/
theorem claim7_sum_property (t : ℚ) (d : WorkoutData)
    (h : get_workout_data t = Except.ok d) :
    ∀ e ∈ planEntries d, e.2.sum ≤ e.1 ∧ e.1 - e.2.sum < 2 * (5/2 : ℚ) := by
  obtain ⟨p45, p65, p85, pt, h1, h2, h3, h4, n45, n65, n85, nt, hd⟩ :=
    get_workout_data_ok t d h
  subst hd
  intro e he
  simp only [planEntries, List.map_cons, List.map_nil, PlatesField.denoms,
    List.mem_append, List.mem_cons, List.not_mem_nil, or_false] at he
  obtain ⟨g45a, g45b⟩ := round2_plate_bound p45 n45
  obtain ⟨g65a, g65b⟩ := round2_plate_bound p65 n65
  obtain ⟨g85a, g85b⟩ := round2_plate_bound p85 n85
  obtain ⟨gta, gtb⟩ := round2_plate_bound pt nt
  rcases he with (rfl | rfl | rfl | rfl) | rfl
  · exact ⟨by norm_num, by norm_num⟩
  · exact ⟨g45a, by linarith⟩
  · exact ⟨g65a, by linarith⟩
  · exact ⟨g85a, by linarith⟩
  · exact ⟨gta, by linarith⟩

/-- Witness for C7 at target 100 on the target entry. -/
theorem claim7_witness :
    ([20, 20] : List ℚ).sum ≤ (40:ℚ) ∧
    (40:ℚ) - ([20, 20] : List ℚ).sum < 2 * (5/2 : ℚ) :=
  claim7_sum_property 100 plan100 get_workout_data_100 ((40:ℚ), [20, 20])
    (by simp [planEntries, plan100])

/-- C8: the first entry of every successful plan is the bar-only set
with label "2 sets", reps 5, total weight 20, per-side load 0 and no
plates. -/
theorem claim8_bar_entry (t : ℚ) (d : WorkoutData)
    (h : get_workout_data t = Except.ok d) :
    d.warmup_sets.head? =
      some { set := ("2 sets"), reps := 5, weight := 20, weight_per_side := 0,
             plates := PlatesField.text ("None (just the bar)") } ∧
    (PlatesField.text ("None (just the bar)")).denoms = ([] : List ℚ) := by
  obtain ⟨p45, p65, p85, pt, _, _, _, _, _, _, _, _, hd⟩ := get_workout_data_ok t d h
  subst hd
  exact ⟨rfl, rfl⟩

/-- Witness for C8 at target 100. -/
theorem claim8_witness :
    plan100.warmup_sets.head? =
      some { set := ("2 sets"), reps := 5, weight := 20, weight_per_side := 0,
             plates := PlatesField.text ("None (just the bar)") } ∧
    (PlatesField.text ("None (just the bar)")).denoms = ([] : List ℚ) :=
  claim8_bar_entry 100 plan100 get_workout_data_100

/-- C9: the target 30 is at least the bar weight 20, yet the plan
fails with the ValueError, because the 45 percent warmup weight is 15,
below the bar weight; failing inputs are not limited to targets below
20. -/
theorem claim9_warmup_failure :
    (20:ℚ) ≤ 30 ∧ (calculate_warmup_weights 30).1 = 15 ∧ (15:ℚ) < 20 ∧
    get_workout_data 30 =
      Except.error ("Total weight must be greater than or equal to the bar weight.") :=
  ⟨by norm_num, by norm_num [calculate_warmup_weights, pyRound], by norm_num,
   get_workout_data_30⟩

/-- C10: the greedy loop terminates: the selection is a defined list
with at most one plate per whole smallest denomination in the weight,
and every default denomination is positive. -/
theorem claim10_termination (w : ℚ) :
    (plate_selection w defaultPlates).length ≤ units w ∧
    (0 ≤ w → toKg (units w) ≤ w) ∧
    (∀ d ∈ defaultPlates, 0 < d) := by
  refine ⟨?_, fun hw => (units_le w hw).1, ?_⟩
  · rw [plate_selection_length]
    exact unitCount_le (units w)
  · intro d hd
    simp only [defaultPlates, List.mem_cons, List.not_mem_nil, or_false] at hd
    rcases hd with rfl | rfl | rfl | rfl <;> norm_num

/-- Witness for C10 at weight 40. -/
theorem claim10_witness :
    (plate_selection 40 defaultPlates).length ≤ units 40 ∧ toKg (units 40) ≤ 40 :=
  ⟨(claim10_termination 40).1, (claim10_termination 40).2.1 (by norm_num)⟩

end Lift
